import Mathlib

set_option maxRecDepth 100000

/-
Verification of the AppMetrica-to-ClickHouse ETL job.

The definitions below are a shallow embedding of the Python sources:
  appmetrica_etl.py, config.py,
  connectors/appmetrica_connector.py, connectors/ch_connector.py.

External effects (HTTP requests, database calls) are made explicit: every
operation returns, next to its result, the list of requests or calls it
issued, and the behaviour of the remote side is an input (an oracle giving
the response to each request).  Python exceptions are modelled with Except;
a bare Python `return` (returning None) is modelled as `none`.
-/

/- ---------------------------------------------------------------------
   Datetimes (datetime.datetime at second granularity, as used by the
   connector: `replace(hour=0, minute=0, second=0, microsecond=0)`,
   `- timedelta(seconds=1)`, and strftime("%Y-%m-%d %H:%M:%S")).
   --------------------------------------------------------------------- -/

structure Datetime where
  year : Nat
  month : Nat
  day : Nat
  hour : Nat
  minute : Nat
  second : Nat
deriving DecidableEq

def isLeap (y : Nat) : Bool :=
  (y % 4 == 0 && y % 100 != 0) || (y % 400 == 0)

def daysInMonth (y m : Nat) : Nat :=
  if m == 2 then (if isLeap y then 29 else 28)
  else if m == 4 || m == 6 || m == 9 || m == 11 then 30
  else 31

/-- `dt.replace(hour=0, minute=0, second=0, microsecond=0)` (second
granularity, so the microsecond field has no counterpart here). -/
def truncToMidnight (dt : Datetime) : Datetime :=
  ⟨dt.year, dt.month, dt.day, 0, 0, 0⟩

/-- `dt - timedelta(seconds=1)`, with calendar roll-over. -/
def subOneSecond (dt : Datetime) : Datetime :=
  if dt.second > 0 then ⟨dt.year, dt.month, dt.day, dt.hour, dt.minute, dt.second - 1⟩
  else if dt.minute > 0 then ⟨dt.year, dt.month, dt.day, dt.hour, dt.minute - 1, 59⟩
  else if dt.hour > 0 then ⟨dt.year, dt.month, dt.day, dt.hour - 1, 59, 59⟩
  else if dt.day > 1 then ⟨dt.year, dt.month, dt.day - 1, 23, 59, 59⟩
  else if dt.month > 1 then ⟨dt.year, dt.month - 1, daysInMonth dt.year (dt.month - 1), 23, 59, 59⟩
  else ⟨dt.year - 1, 12, 31, 23, 59, 59⟩

def pad2 (n : Nat) : String :=
  if n < 10 then ("0") ++ toString n else toString n

def pad4 (n : Nat) : String :=
  if n < 10 then ("000") ++ toString n
  else if n < 100 then ("00") ++ toString n
  else if n < 1000 then ("0") ++ toString n
  else toString n

/-- `dt.strftime("%Y-%m-%d %H:%M:%S")`. -/
def strftime (dt : Datetime) : String :=
  pad4 dt.year ++ ("-") ++ pad2 dt.month ++ ("-") ++ pad2 dt.day ++ (" ")
    ++ pad2 dt.hour ++ (":") ++ pad2 dt.minute ++ (":") ++ pad2 dt.second

/- ---------------------------------------------------------------------
   Cell values, records and dataframes (the slice of pandas the loader
   touches: column-wise astype/map/fillna/to_datetime and DataFrame(list
   of dicts)).
   --------------------------------------------------------------------- -/

inductive CellValue where
  | str (s : String)
  | int (n : Int)
  | boolv (b : Bool)
  | dt (d : Datetime)
  | nan
deriving DecidableEq

abbrev Record := List (String × CellValue)

structure Column where
  name : String
  values : List CellValue
deriving DecidableEq

structure DataFrame where
  cols : List Column
deriving DecidableEq

def DataFrame.numRows (df : DataFrame) : Nat :=
  match df.cols with
  | [] => 0
  | c :: _ => c.values.length

/-- pandas `df.empty`: true when either axis has length zero. -/
def DataFrame.isEmptyDf (df : DataFrame) : Bool :=
  df.cols.isEmpty || df.numRows == 0

def digitVal (c : Char) : Option Nat :=
  if 48 ≤ c.toNat && c.toNat ≤ 57 then some (c.toNat - 48) else none

def parseDigits (l : List Char) : Option Nat :=
  match l with
  | [] => none
  | _ =>
    l.foldl
      (fun acc c =>
        match acc, digitVal c with
        | some a, some d => some (a * 10 + d)
        | _, _ => none)
      (some 0)

/-- Python `int(s)`: optional leading minus sign, then decimal digits. -/
def parseInt (s : String) : Option Int :=
  match s.data with
  | [] => none
  | List.cons c rest =>
    if c = '-' then (parseDigits rest).map (fun n => -(n : Int))
    else (parseDigits s.data).map (fun n => (n : Int))

/-- One cell under `.astype(int)`; `none` models the raised ValueError. -/
def coerceInt : CellValue → Option CellValue
  | CellValue.int n => some (CellValue.int n)
  | CellValue.boolv b => some (CellValue.int (if b then 1 else 0))
  | CellValue.str s => (parseInt s).map CellValue.int
  | CellValue.nan => none
  | CellValue.dt _ => none

/-- Strict parse of the "%Y-%m-%d %H:%M:%S" format. -/
def parseDatetime (s : String) : Option Datetime :=
  match s.splitOn (" ") with
  | [d, t] =>
    match d.splitOn ("-"), t.splitOn (":") with
    | [ys, ms, ds], [hs, mis, ss] =>
      match parseDigits ys.data, parseDigits ms.data, parseDigits ds.data,
            parseDigits hs.data, parseDigits mis.data, parseDigits ss.data with
      | some y, some mo, some da, some h, some mi, some se =>
        if 1 ≤ mo ∧ mo ≤ 12 ∧ 1 ≤ da ∧ da ≤ daysInMonth y mo ∧ h ≤ 23 ∧ mi ≤ 59 ∧ se ≤ 59 then
          some ⟨y, mo, da, h, mi, se⟩
        else none
      | _, _, _, _, _, _ => none
    | _, _ => none
  | _ => none

/-- One cell under `pd.to_datetime(-, format="%Y-%m-%d %H:%M:%S")`;
`none` models the raised parse error, NaN stays NaT. -/
def coerceDatetime : CellValue → Option CellValue
  | CellValue.str s => (parseDatetime s).map CellValue.dt
  | CellValue.dt d => some (CellValue.dt d)
  | CellValue.nan => some CellValue.nan
  | _ => none

/-- One cell under `.map({'true': 1, 'false': 0})`. -/
def boolMap : CellValue → CellValue
  | CellValue.str s =>
    if s == "true" then CellValue.int 1
    else if s == "false" then CellValue.int 0
    else CellValue.nan
  | _ => CellValue.nan

/-- One cell under `.fillna(0)`. -/
def fillna0 : CellValue → CellValue
  | CellValue.nan => CellValue.int 0
  | v => v

/-- One cell under `.astype(bool)` (only 0/1 ints reach this point). -/
def astypeBool : CellValue → CellValue
  | CellValue.int n => CellValue.boolv (n != 0)
  | CellValue.boolv b => CellValue.boolv b
  | _ => CellValue.boolv false

/-- The boolean-column pipeline of `_prepare_dataframe`:
`.map({'true': 1, 'false': 0}).fillna(0).astype(bool)`. -/
def coerceBool (v : CellValue) : CellValue :=
  astypeBool (fillna0 (boolMap v))

def int_columns : List String :=
  [("application_id"), ("click_timestamp"), ("tracking_id"),
   ("install_receive_timestamp"), ("mcc"), ("mnc"),
   ("event_receive_timestamp"), ("event_timestamp"), ("app_build_number")]

def datetime_columns : List String :=
  [("click_datetime"), ("install_datetime"), ("install_receive_datetime"),
   ("event_datetime"), ("event_receive_datetime")]

def bool_columns : List String :=
  [("is_reattribution"), ("is_reinstallation")]

/-- The per-column body of the loop in `_prepare_dataframe`. -/
def prepareColumn (c : Column) : Option Column :=
  if c.name ∈ int_columns then
    (c.values.mapM coerceInt).map (fun vs => ⟨c.name, vs⟩)
  else if c.name ∈ datetime_columns then
    (c.values.mapM coerceDatetime).map (fun vs => ⟨c.name, vs⟩)
  else if c.name ∈ bool_columns then
    some ⟨c.name, c.values.map coerceBool⟩
  else
    some c

def prepareCols : List Column → Option (List Column)
  | [] => some []
  | c :: rest =>
    match prepareColumn c, prepareCols rest with
    | some c2, some rest2 => some (c2 :: rest2)
    | _, _ => none

/-- `ClickHouseConnector._prepare_dataframe`: works on `df.copy()` (hence a
pure function of the input) and rewrites each column according to the
three schema lists; any raising coercion makes the whole call raise
(`none`). -/
def _prepare_dataframe (df : DataFrame) : Option DataFrame :=
  (prepareCols df.cols).map DataFrame.mk

def recordKeys (rs : List Record) : List String :=
  rs.foldl (fun acc r => acc ++ (r.map Prod.fst).filter (fun k => !(acc.contains k))) []

/-- `pd.DataFrame(list_of_dicts)`: columns are the record keys in order of
first appearance, missing keys become NaN. -/
def dataFrameOfRecords (rs : List Record) : DataFrame :=
  DataFrame.mk
    ((recordKeys rs).map
      (fun k => ⟨k, rs.map (fun r => (List.lookup k r).getD CellValue.nan)⟩))

/- ---------------------------------------------------------------------
   Static configuration (config.py).  The endpoint dictionaries have
   exactly the two keys below, so the data category is an enumeration.
   --------------------------------------------------------------------- -/

inductive Source where
  | installations
  | events
deriving DecidableEq

def appmetrica_endpoints : Source → String
  | Source.installations => "/logs/v1/export/installations.json"
  | Source.events => "/logs/v1/export/events.json"

def appmetrica_fields : Source → String
  | Source.installations => "application_id,installation_id,attributed_touch_type,click_datetime,click_id,click_ipv6,click_timestamp,click_url_parameters,click_user_agent,profile_id,publisher_id,publisher_name,tracker_name,tracking_id,install_datetime,install_ipv6,install_receive_datetime,install_receive_timestamp,install_timestamp,is_reattribution,is_reinstallation,match_type,appmetrica_device_id,city,connection_type,country_iso_code,device_locale,device_manufacturer,device_model,device_type,google_aid,oaid,ios_ifa,ios_ifv,mcc,mnc,operator_name,os_name,os_version,windows_aid,app_package_name,app_version_name"
  | Source.events => "event_datetime,event_json,event_name,event_receive_datetime,event_receive_timestamp,event_timestamp,session_id,installation_id,appmetrica_device_id,city,connection_type,country_iso_code,device_ipv6,device_locale,device_manufacturer,device_model,device_type,google_aid,ios_ifa,ios_ifv,mcc,mnc,operator_name,original_device_model,os_name,os_version,profile_id,windows_aid,app_build_number,app_package_name,app_version_name,application_id"

/-- `list(appmetrica_endpoints.keys())`, in the dictionary's order. -/
def source_names : List Source := [Source.installations, Source.events]

def table_name : Source → String
  | Source.installations => "noproblem.appmetrica_installations"
  | Source.events => "noproblem.appmetrica_events"

/- ---------------------------------------------------------------------
   AppMetricaConnector (connectors/appmetrica_connector.py).
   --------------------------------------------------------------------- -/

structure Params where
  application_id : Int
  date_since : String
  date_until : String
  fields : String
deriving DecidableEq

structure HttpRequest where
  url : String
  params : Params
deriving DecidableEq

structure HttpResponse where
  status : Nat
  payload : List Record
deriving DecidableEq

/-- Connector state: `self.params` (None in `__init__`) and
`self.data_request_endpoint` (attribute only set by
`_request_source_data`; the empty string stands for "not yet set", and it
is only ever read behind the `self.params` guard). -/
structure AMState where
  params : Option Params
  data_request_endpoint : String
deriving DecidableEq

def base_url : String := "https://api.appmetrica.yandex.ru"

inductive PollResult where
  | notSubmitted
  | failedStatus (status : Nat)
  | timedOut (elapsedSeconds : Nat)
  | success (payload : List Record)
deriving DecidableEq

inductive EtlError where
  | connError
  | queryError
  | typeError
  | timeoutError (elapsedSeconds : Nat)
  | prepError
  | writeError
deriving DecidableEq

/-- `AppMetricaConnector._request_source_data`: computes date_since from
the watermark and date_until as midnight of `now` minus one second,
stores the parameter set and endpoint on the connector, and issues one
GET; returns True exactly for status 202 (accepted) and status 200
(already requested).  Result: (returned bool, new state, requests issued). -/
def _request_source_data (_st : AMState) (source : Source) (app : Int)
    (date_from : Datetime) (now : Datetime) (resp : HttpResponse) :
    Bool × AMState × List HttpRequest :=
  let since := strftime date_from
  let until_ := strftime (subOneSecond (truncToMidnight now))
  let p : Params := ⟨app, since, until_, appmetrica_fields source⟩
  let endpoint := appmetrica_endpoints source
  let st2 : AMState := ⟨some p, endpoint⟩
  (resp.status == 202 || resp.status == 200, st2, [⟨base_url ++ endpoint, p⟩])

/-- The `for i in range(n_retries)` loop of `_get_data_from_source`:
`remote j` is the response to the j-th re-issued request; `total` is the
original n_retries (used in the TimeoutError message), `w` is wait_s. -/
def pollLoop (req : HttpRequest) (remote : Nat → HttpResponse)
    (total w i n : Nat) : PollResult × List HttpRequest :=
  match n with
  | 0 => (PollResult.timedOut (total * w), [])
  | Nat.succ m =>
    if (remote i).status == 202 then
      ((pollLoop req remote total w (i + 1) m).1,
       req :: (pollLoop req remote total w (i + 1) m).2)
    else if (remote i).status == 200 then
      (PollResult.success (remote i).payload, [req])
    else
      (PollResult.failedStatus (remote i).status, [req])

/-- `AppMetricaConnector._get_data_from_source(n_retries, wait_s)`:
returns False at once when `self.params` is falsy (no request issued);
otherwise re-issues the stored request up to n_retries times, returning
the JSON payload on 200, False on any other non-202 status, and raising
TimeoutError(n_retries * wait_s seconds) when the loop exhausts. -/
def _get_data_from_source (st : AMState) (remote : Nat → HttpResponse)
    (n_retries wait_s : Nat) : PollResult × List HttpRequest :=
  match st.params with
  | none => (PollResult.notSubmitted, [])
  | some p =>
    pollLoop ⟨base_url ++ st.data_request_endpoint, p⟩ remote n_retries wait_s 0 n_retries

/-- `AppMetricaConnector.get_source_data`: submit, then (only if submit
returned True) poll with the default arguments (n_retries = 40,
wait_s = 30), then `result_data['data']`.  Subscripting None (submit
failed) or False (poll returned False) raises TypeError; the poll's
TimeoutError propagates. -/
def get_source_data (st : AMState) (source : Source) (app : Int)
    (date_from : Datetime) (now : Datetime)
    (submitResp : HttpResponse) (remote : Nat → HttpResponse) :
    Except EtlError (List Record) × AMState × List HttpRequest :=
  match _request_source_data st source app date_from now submitResp with
  | (ok, st2, subReqs) =>
    if ok then
      match _get_data_from_source st2 remote 40 30 with
      | (PollResult.success d, reqs) => (Except.ok d, st2, subReqs ++ reqs)
      | (PollResult.timedOut e, reqs) =>
        (Except.error (EtlError.timeoutError e), st2, subReqs ++ reqs)
      | (PollResult.failedStatus _, reqs) =>
        (Except.error EtlError.typeError, st2, subReqs ++ reqs)
      | (PollResult.notSubmitted, reqs) =>
        (Except.error EtlError.typeError, st2, subReqs ++ reqs)
    else
      (Except.error EtlError.typeError, st2, subReqs)

/- ---------------------------------------------------------------------
   ClickHouseConnector (connectors/ch_connector.py) and the orchestrator
   (appmetrica_etl.py).  Calls to the two external systems are recorded
   as events; their outcomes are supplied by the environment.
   --------------------------------------------------------------------- -/

inductive Event where
  | chConnect
  | amProbe
  | chQueryMax (s : Source)
  | amCall (r : HttpRequest)
  | chInsert (table : String) (rows : Nat)
  | chDisconnect
deriving DecidableEq

def isRemoteCall : Event → Bool
  | Event.amProbe => true
  | Event.amCall _ => true
  | _ => false

/-- `ClickHouseConnector.insert_dataframe(table_name, df)`: raises
ConnectionError when not connected; when `df.empty`, logs a warning and
does a bare `return` (the Python return value is None — modelled as
`Except.ok none` — and no insert call is made); otherwise prepares the
frame (a raising coercion propagates) and issues one bulk insert, which
either succeeds or raises.  The function never returns a number. -/
def insert_dataframe (connected : Bool) (writeOk : Bool)
    (table : String) (df : DataFrame) :
    Except EtlError (Option Nat) × List Event :=
  if connected then
    if df.isEmptyDf then
      (Except.ok none, [])
    else
      match _prepare_dataframe df with
      | none => (Except.error EtlError.prepError, [])
      | some dfp =>
        if writeOk then (Except.ok none, [Event.chInsert table dfp.numRows])
        else (Except.error EtlError.writeError, [Event.chInsert table dfp.numRows])
  else
    (Except.error EtlError.connError, [])

/-- `ClickHouseConnector.insert_source_data`: table lookup plus
`insert_dataframe`, then a bare `return`. -/
def insert_source_data (connected : Bool) (writeOk : Bool)
    (source : Source) (df : DataFrame) :
    Except EtlError (Option Nat) × List Event :=
  insert_dataframe connected writeOk (table_name source) df

/-- The run's environment: outcomes of all external interactions.
`maxDate s = none` means `get_target_max_date` raises;
`submitResp`/`pollResp` give the remote's answers to the export request
and its re-issues; `writeOk` tells whether the bulk insert succeeds. -/
structure Env where
  chOk : Bool
  amOk : Bool
  now : Datetime
  maxDate : Source → Option Datetime
  submitResp : Source → HttpResponse
  pollResp : Source → Nat → HttpResponse
  writeOk : Source → Bool

/-- `check_connections` in appmetrica_etl.py: attempts the ClickHouse
connection, then — regardless of that outcome — the App Metrica probe
(`test_connection`, a GET on /management/v1/applications); if either
failed it disconnects ClickHouse and raises ConnectionError. -/
def check_connections (env : Env) : Except EtlError Bool × List Event :=
  if env.chOk && env.amOk then
    (Except.ok true, [Event.chConnect, Event.amProbe])
  else
    (Except.error EtlError.connError, [Event.chConnect, Event.amProbe, Event.chDisconnect])

/-- `do_source_etl`: watermark read, then `get_source_data`, then
`pd.DataFrame(src_data)` and `insert_source_data`; any raise propagates. -/
def do_source_etl (env : Env) (st : AMState) (source : Source) (app : Int) :
    Except EtlError Unit × AMState × List Event :=
  match env.maxDate source with
  | none => (Except.error EtlError.queryError, st, [Event.chQueryMax source])
  | some md =>
    match get_source_data st source app md env.now (env.submitResp source) (env.pollResp source) with
    | (res, st2, reqs) =>
      match res with
      | Except.error e =>
        (Except.error e, st2, Event.chQueryMax source :: reqs.map Event.amCall)
      | Except.ok rows =>
        match insert_source_data env.chOk (env.writeOk source) source (dataFrameOfRecords rows) with
        | (Except.error e, insEv) =>
          (Except.error e, st2, (Event.chQueryMax source :: reqs.map Event.amCall) ++ insEv)
        | (Except.ok _, insEv) =>
          (Except.ok (), st2, (Event.chQueryMax source :: reqs.map Event.amCall) ++ insEv)

/-- The `for source_name in source_names` loop of `do_app_etl`, with the
shared connector state threaded through; the first raise aborts the rest. -/
def goSources (env : Env) (app : Int) :
    AMState → List Source → Except EtlError Unit × AMState × List Event
  | st, [] => (Except.ok (), st, [])
  | st, s :: rest =>
    match do_source_etl env st s app with
    | (Except.error e, st2, ev) => (Except.error e, st2, ev)
    | (Except.ok _, st2, ev) =>
      match goSources env app st2 rest with
      | (r2, st3, ev2) => (r2, st3, ev ++ ev2)

/-- `do_app_etl(app_id)`. -/
def do_app_etl (env : Env) (st : AMState) (app : Int) :
    Except EtlError Unit × List Event :=
  match goSources env app st source_names with
  | (r, _, ev) => (r, ev)

/-- `main()` in appmetrica_etl.py (renamed: `main` is reserved in Lean): `check_connections`, then the ETL for
application 4804657, then `client_ch.disconnect()`.  There is no
try/finally: an exception raised inside `do_app_etl` propagates past the
final `disconnect` call. -/
def mainRun (env : Env) : Except EtlError Unit × List Event :=
  match check_connections env with
  | (Except.error e, t) => (Except.error e, t)
  | (Except.ok _, t) =>
    match do_app_etl env ⟨none, ("")⟩ 4804657 with
    | (Except.error e, t2) => (Except.error e, t ++ t2)
    | (Except.ok _, t2) => (Except.ok (), t ++ t2 ++ [Event.chDisconnect])

/- ---------------------------------------------------------------------
   Concrete fixtures used by the witnesses and counterexamples.
   --------------------------------------------------------------------- -/

def dt0 : Datetime := ⟨2024, 1, 15, 8, 0, 0⟩

def dtA : Datetime := ⟨2024, 1, 1, 0, 0, 0⟩

def resp202 : HttpResponse := ⟨202, []⟩

def resp404 : HttpResponse := ⟨404, []⟩

def pendingRemote : Nat → HttpResponse := fun _ => resp202

def readyRemote : Nat → HttpResponse := fun _ => ⟨200, []⟩

def p0 : Params := ⟨1, ("2024-01-01 00:00:00"), ("2024-01-14 23:59:59"), ("f")⟩

def st0 : AMState := ⟨some p0, appmetrica_endpoints Source.events⟩

/-- Connector state right after `__init__`: `self.params = None`. -/
def stInit : AMState := ⟨none, ("")⟩

def env0 : Env :=
  ⟨false, true, dt0, fun _ => none, fun _ => resp202, fun _ _ => resp202, fun _ => true⟩

def env1 : Env :=
  ⟨true, true, dt0, fun _ => none, fun _ => resp202, fun _ _ => resp202, fun _ => true⟩

def emptyDF : DataFrame := ⟨[]⟩

def plainDF : DataFrame := ⟨[⟨("city"), [CellValue.str ("Moscow")]⟩]⟩

def boolColExample : Column :=
  ⟨("is_reattribution"),
   [CellValue.str ("true"), CellValue.str ("false"), CellValue.nan, CellValue.str ("yes")]⟩

def r0 : HttpRequest :=
  ⟨("https://api.appmetrica.yandex.ru/logs/v1/export/events.json"),
   ⟨7, ("2024-01-01 00:00:00"), ("2024-01-14 23:59:59"), appmetrica_fields Source.events⟩⟩

/- ---------------------------------------------------------------------
   Helper lemmas.
   --------------------------------------------------------------------- -/

theorem pollLoop_pending (req : HttpRequest) (remote : Nat → HttpResponse)
    (total w : Nat) (h : ∀ j, (remote j).status = 202) :
    ∀ (n i : Nat),
      pollLoop req remote total w i n = (PollResult.timedOut (total * w), List.replicate n req) := by
  intro n
  induction n with
  | zero => intro i; rfl
  | succ m ih =>
    intro i
    simp [pollLoop, h i, ih (i + 1), List.replicate]

theorem pollLoop_mem (req : HttpRequest) (remote : Nat → HttpResponse) (total w : Nat) :
    ∀ (n i : Nat) (r : HttpRequest), r ∈ (pollLoop req remote total w i n).2 → r = req := by
  intro n
  induction n with
  | zero => intro i r hr; simp [pollLoop] at hr
  | succ m ih =>
    intro i r hr
    simp only [pollLoop] at hr
    split at hr
    · rcases List.mem_cons.mp hr with h | h
      · exact h
      · exact ih (i + 1) r h
    · split at hr
      · simpa using hr
      · simpa using hr

/- ---------------------------------------------------------------------
   The claims.
   --------------------------------------------------------------------- -/

/-- C1: if every poll request is answered with the pending status 202,
then `_get_data_from_source` issues exactly `n_retries` requests (all
re-issues of the stored request) and then fails by raising the timeout
error whose elapsed seconds equal `n_retries * wait_s`; with the default
arguments 40 and 30 this is 40 requests and 1200 seconds, and no request
is made after the last attempt (the trace has exactly `n_retries`
entries). -/
theorem c1_poll_exhaustion (st : AMState) (p : Params) (remote : Nat → HttpResponse)
    (n w : Nat) (h1 : st.params = some p) (h2 : ∀ j, (remote j).status = 202) :
    _get_data_from_source st remote n w
      = (PollResult.timedOut (n * w),
         List.replicate n ⟨base_url ++ st.data_request_endpoint, p⟩) := by
  simp only [_get_data_from_source, h1]
  exact pollLoop_pending _ remote n w h2 n 0

/-- Witness for C1: at the default arguments (40 attempts, 30-second
interval) and an always-pending mock remote, poll issues exactly 40
requests and times out with 1200 elapsed seconds. -/
theorem c1_witness :
    _get_data_from_source st0 pendingRemote 40 30
      = (PollResult.timedOut 1200,
         List.replicate 40 ⟨base_url ++ appmetrica_endpoints Source.events, p0⟩) :=
  c1_poll_exhaustion st0 p0 pendingRemote 40 30 rfl (fun _ => rfl)

/-- C5: polling before any submit (the connector state still has
`params = None`, as set by `__init__`) fails at once with the
not-submitted outcome and issues no network request at all. -/
theorem c5_poll_before_submit (st : AMState) (remote : Nat → HttpResponse)
    (n w : Nat) (h : st.params = none) :
    _get_data_from_source st remote n w = (PollResult.notSubmitted, []) := by
  simp only [_get_data_from_source, h]

/-- Witness for C5: the freshly initialised connector state. -/
theorem c5_witness :
    _get_data_from_source stInit pendingRemote 40 30 = (PollResult.notSubmitted, []) :=
  c5_poll_before_submit stInit pendingRemote 40 30 rfl

/-- C4: every submit call sends exactly one request whose `date_until`
equals the start of the current day minus one second, formatted as
YYYY-MM-DD HH:MM:SS; in particular for now = 2024-01-15T08:00:00 that
string is "2024-01-14 23:59:59". -/
theorem c4_date_until (st : AMState) (source : Source) (app : Int)
    (date_from now : Datetime) (resp : HttpResponse) :
    ((_request_source_data st source app date_from now resp).2.2).map
        (fun r => r.params.date_until)
      = [strftime (subOneSecond (truncToMidnight now))]
    ∧ strftime (subOneSecond (truncToMidnight dt0)) = ("2024-01-14 23:59:59") := by
  constructor
  · rfl
  · decide

/-- C2: every HTTP request issued by a whole `get_source_data` call — the
submit request and every request of the poll loop — is the one fixed
request whose parameter set {application_id, date_since, date_until,
fields} and endpoint are computed once at submit time; nothing is
recomputed during polling. -/
theorem c2_poll_replays_submit_request (st : AMState) (source : Source) (app : Int)
    (date_from now : Datetime) (submitResp : HttpResponse)
    (remote : Nat → HttpResponse) (r : HttpRequest)
    (hr : r ∈ (get_source_data st source app date_from now submitResp remote).2.2) :
    r = ⟨base_url ++ appmetrica_endpoints source,
         ⟨app, strftime date_from, strftime (subOneSecond (truncToMidnight now)),
          appmetrica_fields source⟩⟩ := by
  have hmem :
      ∀ q, q ∈ (_get_data_from_source
          ⟨some ⟨app, strftime date_from, strftime (subOneSecond (truncToMidnight now)),
                 appmetrica_fields source⟩,
           appmetrica_endpoints source⟩ remote 40 30).2 →
        q = ⟨base_url ++ appmetrica_endpoints source,
             ⟨app, strftime date_from, strftime (subOneSecond (truncToMidnight now)),
              appmetrica_fields source⟩⟩ := by
    intro q hq
    exact pollLoop_mem _ remote 40 30 40 0 q hq
  simp only [get_source_data, _request_source_data] at hr
  split at hr
  · split at hr
    next heq =>
      rw [heq] at hmem
      rcases List.mem_append.mp hr with h | h
      · simpa using h
      · exact hmem r h
    next heq =>
      rw [heq] at hmem
      rcases List.mem_append.mp hr with h | h
      · simpa using h
      · exact hmem r h
    next heq =>
      rw [heq] at hmem
      rcases List.mem_append.mp hr with h | h
      · simpa using h
      · exact hmem r h
    next heq =>
      rw [heq] at hmem
      rcases List.mem_append.mp hr with h | h
      · simpa using h
      · exact hmem r h
  · simpa using hr

/-- Witness for C2: with a mock remote that completes on the first poll,
the concrete request literal `r0` occurs in the issued trace, and by the
theorem it equals the submit-time request for the events category of
application 7 with watermark 2024-01-01T00:00:00 and now
2024-01-15T08:00:00. -/
theorem c2_witness :
    r0 = ⟨base_url ++ appmetrica_endpoints Source.events,
          ⟨7, strftime dtA, strftime (subOneSecond (truncToMidnight dt0)),
           appmetrica_fields Source.events⟩⟩ :=
  c2_poll_replays_submit_request stInit Source.events 7 dtA dt0 resp202 readyRemote r0
    (by decide)

/-- C3: `_request_source_data` returns True exactly when the remote
answers 202 (accepted) or 200 (already requested, treated as success);
for any other status it returns False, and `get_source_data` then does
not run the poll loop: the only request ever issued is the submit request
itself (trace length 1) and no data is fetched (the call fails). -/
theorem c3_submit_status (st : AMState) (source : Source) (app : Int)
    (date_from now : Datetime) (resp : HttpResponse) (remote : Nat → HttpResponse) :
    ((_request_source_data st source app date_from now resp).1 = true
        ↔ (resp.status = 202 ∨ resp.status = 200))
    ∧ (resp.status ≠ 202 → resp.status ≠ 200 →
        (get_source_data st source app date_from now resp remote).1
            = Except.error EtlError.typeError
        ∧ ((get_source_data st source app date_from now resp remote).2.2).length = 1) := by
  constructor
  · simp [_request_source_data]
  · intro h202 h200
    have hfalse : (resp.status == 202 || resp.status == 200) = false := by
      simp [h202, h200]
    constructor
    · simp [get_source_data, _request_source_data, hfalse]
    · simp [get_source_data, _request_source_data, hfalse]

/-- Witness for C3: a concrete 404 submit answer, for which the run fails
and exactly one request (the submit itself) was issued. -/
theorem c3_witness :
    (get_source_data stInit Source.installations 7 dtA dt0 resp404 pendingRemote).1
        = Except.error EtlError.typeError
    ∧ ((get_source_data stInit Source.installations 7 dtA dt0 resp404 pendingRemote).2.2).length
        = 1 :=
  (c3_submit_status stInit Source.installations 7 dtA dt0 resp404 pendingRemote).2
    (by decide) (by decide)

theorem insert_dataframe_no_disconnect (connected writeOk : Bool) (t : String)
    (df : DataFrame) :
    Event.chDisconnect ∉ (insert_dataframe connected writeOk t df).2 := by
  unfold insert_dataframe
  split
  · split
    · simp
    · split
      · simp
      · split <;> simp
  · simp

theorem insert_source_data_no_disconnect (connected writeOk : Bool) (s : Source)
    (df : DataFrame) :
    Event.chDisconnect ∉ (insert_source_data connected writeOk s df).2 :=
  insert_dataframe_no_disconnect connected writeOk (table_name s) df

theorem do_source_etl_no_disconnect (env : Env) (st : AMState) (s : Source) (app : Int) :
    Event.chDisconnect ∉ (do_source_etl env st s app).2.2 := by
  unfold do_source_etl
  split
  · simp
  · split
    next res st2 reqs hres =>
      split
      · intro h
        rcases List.mem_cons.mp h with h | h
        · exact Event.noConfusion h
        · rcases List.mem_map.mp h with ⟨r, _, hr⟩
          exact Event.noConfusion hr
      next rows =>
        split
        next s2 insEv heq =>
          intro h
          rcases List.mem_append.mp h with h | h
          · rcases List.mem_cons.mp h with h | h
            · exact Event.noConfusion h
            · rcases List.mem_map.mp h with ⟨r, _, hr⟩
              exact Event.noConfusion hr
          · have h1 := insert_source_data_no_disconnect env.chOk (env.writeOk s) s
              (dataFrameOfRecords rows)
            rw [heq] at h1
            exact h1 h
        next v insEv heq =>
          intro h
          rcases List.mem_append.mp h with h | h
          · rcases List.mem_cons.mp h with h | h
            · exact Event.noConfusion h
            · rcases List.mem_map.mp h with ⟨r, _, hr⟩
              exact Event.noConfusion hr
          · have h1 := insert_source_data_no_disconnect env.chOk (env.writeOk s) s
              (dataFrameOfRecords rows)
            rw [heq] at h1
            exact h1 h

theorem goSources_no_disconnect (env : Env) (app : Int) :
    ∀ (l : List Source) (st : AMState),
      Event.chDisconnect ∉ (goSources env app st l).2.2 := by
  intro l
  induction l with
  | nil => intro st; simp [goSources]
  | cons s rest ih =>
    intro st
    simp only [goSources]
    split
    next e st2 ev heq =>
      have h1 := do_source_etl_no_disconnect env st s app
      rw [heq] at h1
      exact h1
    next u st2 ev heq =>
      intro h
      rcases List.mem_append.mp h with h | h
      · have h1 := do_source_etl_no_disconnect env st s app
        rw [heq] at h1
        exact h1 h
      · exact ih st2 h

/-- C6 counterexample: with the destination (ClickHouse) connectivity
check failing and everything else healthy (`env0`), the run does abort
with ConnectionError — but a remote call has been issued: the App Metrica
connectivity probe (`test_connection` runs unconditionally after the
failed ClickHouse check).  "Zero remote calls" is therefore false. -/
theorem c6_counterexample :
    (mainRun env0).1 = Except.error EtlError.connError
    ∧ (mainRun env0).2.filter isRemoteCall = [Event.amProbe] := by
  constructor
  · rfl
  · rfl

/-- C6 as amended: if the destination connectivity check fails, the run
aborts with ConnectionError before any category sync is attempted and
before any export request — the full trace is exactly the ClickHouse
connect attempt, the App Metrica connectivity probe (one remote call,
which IS still issued), and the disconnect. -/
theorem c6_abort_on_ch_failure (env : Env) (h : env.chOk = false) :
    (mainRun env).1 = Except.error EtlError.connError
    ∧ (mainRun env).2 = [Event.chConnect, Event.amProbe, Event.chDisconnect] := by
  unfold mainRun check_connections
  rw [h]
  simp

/-- Witness for the amended C6 at the concrete environment `env0`. -/
theorem c6_witness :
    (mainRun env0).1 = Except.error EtlError.connError
    ∧ (mainRun env0).2 = [Event.chConnect, Event.amProbe, Event.chDisconnect] :=
  c6_abort_on_ch_failure env0 rfl

/-- C9 counterexample: in `env1` both connectivity checks pass but the
first watermark query raises; the run fails after the checks, and the
ClickHouse disconnect is never called (there is no try/finally in
`main`), contradicting "disconnect is called on every completion". -/
theorem c9_counterexample :
    (mainRun env1).1 = Except.error EtlError.queryError
    ∧ Event.chDisconnect ∉ (mainRun env1).2 := by
  constructor
  · rfl
  · decide

/-- C9 as amended: the destination connection is released exactly when
the run succeeds or when the pre-flight connectivity check itself fails
(check_connections disconnects before raising); when any later stage
(watermark read, submit, poll, load) raises, the exception propagates out
of `main` past the final disconnect call, which is then never executed. -/
theorem c9_disconnect_iff (env : Env) :
    Event.chDisconnect ∈ (mainRun env).2
      ↔ ((mainRun env).1 = Except.ok () ∨ env.chOk = false ∨ env.amOk = false) := by
  unfold mainRun check_connections
  cases hch : env.chOk with
  | false =>
    simp
  | true =>
    cases ham : env.amOk with
    | false => simp
    | true =>
      simp only [Bool.and_self, if_pos]
      split
      next e t2 heq =>
        rcases hg : goSources env 4804657 ⟨none, ("")⟩ source_names with ⟨r, st3, ev⟩
        unfold do_app_etl at heq
        rw [hg] at heq
        have hev : ev = t2 := congrArg Prod.snd heq
        have hnd := goSources_no_disconnect env 4804657 source_names ⟨none, ("")⟩
        rw [hg] at hnd
        constructor
        · intro h
          exfalso
          rcases List.mem_append.mp h with h | h
          · simp at h
          · exact hnd (hev ▸ h)
        · rintro (h | h | h)
          · exact Except.noConfusion h
          · exact Bool.noConfusion h
          · exact Bool.noConfusion h
      next u t2 heq =>
        constructor
        · intro _
          exact Or.inl rfl
        · intro _
          simp

/-- C7 counterexample: on an empty batch, `insert_dataframe` does not
return 0 — the Python function ends with a bare `return`, so its value is
None (`Except.ok none` here, and indeed no path of the function ever
returns a number); the no-op part of the claim does hold (no insert
event, no error). -/
theorem c7_counterexample :
    (insert_dataframe true true (table_name Source.installations) emptyDF).1
        ≠ Except.ok (some 0)
    ∧ insert_dataframe true true (table_name Source.installations) emptyDF
        = (Except.ok none, []) := by
  constructor
  · intro h
    exact Option.noConfusion (Except.ok.inj h)
  · rfl

/-- C7 as amended: `load` (insert_dataframe) applied to an empty
RecordBatch while connected is a no-op: it makes no insert call on the
destination store and raises no error — but it returns None (Python's
no-value; the source logs the skip as a warning), not the number 0. -/
theorem c7_empty_noop (writeOk : Bool) (table : String) (df : DataFrame)
    (h : df.isEmptyDf = true) :
    insert_dataframe true writeOk table df = (Except.ok none, []) := by
  unfold insert_dataframe
  rw [h]
  simp

/-- Witness for the amended C7 at the empty dataframe. -/
theorem c7_witness :
    insert_dataframe true true (table_name Source.events) emptyDF = (Except.ok none, []) :=
  c7_empty_noop true (table_name Source.events) emptyDF rfl

/-- C8: for every column of the batch whose name is in the boolean schema
list, `_prepare_dataframe`'s loop body rewrites the whole column through
the total (never-raising) pipeline `coerceBool`, which sends the string
"true" to 1 (boolean true: pandas `.astype(bool)` makes the column
boolean, and Python's True equals 1) and every other value — the string
"false", garbage, and missing (NaN) alike — to 0 (boolean false). -/
theorem c8_boolean_coercion (c : Column) (h : c.name ∈ bool_columns) :
    prepareColumn c = some ⟨c.name, c.values.map coerceBool⟩
    ∧ coerceBool (CellValue.str ("true")) = CellValue.boolv true
    ∧ coerceBool (CellValue.str ("false")) = CellValue.boolv false
    ∧ coerceBool CellValue.nan = CellValue.boolv false
    ∧ ∀ v : CellValue, v ≠ CellValue.str ("true") → coerceBool v = CellValue.boolv false := by
  refine ⟨?_, by decide, by decide, by decide, ?_⟩
  · have h1 : c.name ∉ int_columns := by
      rcases List.mem_pair.mp (by simpa [bool_columns] using h) with h2 | h2 <;>
        simp [h2, int_columns]
    have h2 : c.name ∉ datetime_columns := by
      rcases List.mem_pair.mp (by simpa [bool_columns] using h) with h2 | h2 <;>
        simp [h2, datetime_columns]
    simp [prepareColumn, h1, h2, h]
  · intro v hv
    cases v with
    | str s =>
      by_cases hs : s = ("true")
      · exact absurd (by rw [hs]) hv
      · by_cases hf : s = ("false")
        · simp [coerceBool, boolMap, fillna0, astypeBool, hf]
        · simp [coerceBool, boolMap, fillna0, astypeBool, hs, hf]
    | int n => rfl
    | boolv b => rfl
    | dt d => rfl
    | nan => rfl

/-- Witness for C8: the boolean-schema column `boolColExample`
("is_reattribution" with values "true", "false", NaN, "yes") is coerced
to true, false, false, false with no error. -/
theorem c8_witness :
    prepareColumn boolColExample
      = some ⟨("is_reattribution"),
              [CellValue.boolv true, CellValue.boolv false,
               CellValue.boolv false, CellValue.boolv false]⟩ := by
  have h := (c8_boolean_coercion boolColExample (by decide)).1
  rw [h]
  rfl

theorem prepareCols_length :
    ∀ (l l2 : List Column), prepareCols l = some l2 → l2.length = l.length := by
  intro l
  induction l with
  | nil =>
    intro l2 h
    simp only [prepareCols] at h
    rw [← Option.some.inj h]
  | cons c rest ih =>
    intro l2 h
    simp only [prepareCols] at h
    split at h
    next c2 rest2 h1 h2 =>
      rw [← Option.some.inj h]
      simp [ih rest2 h2]
    next =>
      exact Option.noConfusion h

theorem prepareCols_get? :
    ∀ (l l2 : List Column) (i : Nat) (c : Column),
      prepareCols l = some l2 → l.get? i = some c →
      ∃ c2, l2.get? i = some c2 ∧ prepareColumn c = some c2 := by
  intro l
  induction l with
  | nil =>
    intro l2 i c _ hc
    simp at hc
  | cons a rest ih =>
    intro l2 i c h hc
    simp only [prepareCols] at h
    split at h
    next c2 rest2 h1 h2 =>
      rw [← Option.some.inj h]
      cases i with
      | zero =>
        refine ⟨c2, rfl, ?_⟩
        have : a = c := Option.some.inj hc
        rw [← this]
        exact h1
      | succ j =>
        exact ih rest2 j c h2 hc
    next =>
      exact Option.noConfusion h

/-- C10: `_prepare_dataframe` works on a copy (`df.copy()`), hence is a
pure function of its input — the caller's dataframe is untouched — and
when it succeeds it keeps the column count and leaves every column whose
name is in none of the three schema lists (integer, datetime, boolean)
exactly as it was, values included, at the same position. -/
theorem c10_prepare_frame (df out : DataFrame) (i : Nat) (c : Column)
    (h : _prepare_dataframe df = some out)
    (hc : df.cols.get? i = some c)
    (h1 : c.name ∉ int_columns)
    (h2 : c.name ∉ datetime_columns)
    (h3 : c.name ∉ bool_columns) :
    out.cols.length = df.cols.length ∧ out.cols.get? i = some c := by
  unfold _prepare_dataframe at h
  rcases hp : prepareCols df.cols with _ | l2
  · rw [hp] at h
    exact Option.noConfusion h
  · rw [hp] at h
    have hout : out.cols = l2 := by
      have := Option.some.inj h
      rw [← this]
    constructor
    · rw [hout]
      exact prepareCols_length df.cols l2 hp
    · rcases prepareCols_get? df.cols l2 i c hp hc with ⟨c2, hg, hprep⟩
      have hid : prepareColumn c = some c := by
        unfold prepareColumn
        rw [if_neg h1, if_neg h2, if_neg h3]
      rw [hid] at hprep
      rw [hout, hg, ← Option.some.inj hprep]

/-- Witness for C10: a one-column frame whose column "city" is in none of
the schema lists passes through `_prepare_dataframe` unchanged. -/
theorem c10_witness :
    plainDF.cols.length = plainDF.cols.length
    ∧ plainDF.cols.get? 0 = some ⟨("city"), [CellValue.str ("Moscow")]⟩ :=
  c10_prepare_frame plainDF plainDF 0 ⟨("city"), [CellValue.str ("Moscow")]⟩
    rfl rfl (by decide) (by decide) (by decide)
